import Mathlib

/-!
Shallow embedding of the Gerber-Api conversion service (src/main.py and the
repository's sibling variants) and proofs about its specification claims.

The repository is a FastAPI service: POST /convert-gerber/ takes a zip upload,
classifies the `.gbr` entries into Top/Bottom groups by a case-sensitive
substring test on the entry name, renders each non-empty group through the
pygerber engine into `output_top.png` / `output_bottom.png` inside a freshly
created temporary directory held in a process-wide global `OUTPUT_DIR`, and
reports each image's size in millimeters (`round(px / 40)`).  GET
/images/{name} serves `os.path.join(OUTPUT_DIR, name)`; GET /list-images/
re-measures every `.png` in `OUTPUT_DIR`.

The embedding models: strings as Lean `String`, the filesystem as an
association list from absolute path to image (pixel dimensions), the render
engine as an injected function from a group's decoded texts to an optional
raster (None = RenderError), and Python's `round` (banker's rounding) exactly
over `ℚ`.  The handler is split at its single `await` suspension point
(`await file.read()`, which sits between `OUTPUT_DIR = tempfile.mkdtemp()`
and the reads of the global) so that interleavings of concurrent requests can
be expressed faithfully.
-/

deriving instance DecidableEq for Except

namespace GerberApi

/-! ## Character-list string primitives

Python's `str.endswith`, substring membership (`'Top' in name`) and
`os.path.join` are modelled through executable char-list functions so that
every concrete instance evaluates by `decide`. -/

/-- Strip a leading occurrence of `a` from `b`: `some r` iff `b = a ++ r`. -/
def dropPre : List Char → List Char → Option (List Char)
  | [], s => some s
  | _ :: _, [] => none
  | a :: as, b :: bs => if a = b then dropPre as bs else none

/-- `a` is a leading segment of `b`. -/
def leadsList (a b : List Char) : Bool := (dropPre a b).isSome

/-- `pat` occurs as a contiguous substring of `s` (Python's `pat in s`). -/
def containsSub (pat : List Char) : List Char → Bool
  | [] => leadsList pat []
  | c :: rest => leadsList pat (c :: rest) || containsSub pat rest

/-- Python's `s.endswith(suf)`. -/
def sEndsWith (s suf : String) : Bool := leadsList suf.data.reverse s.data.reverse

theorem dropPre_eq_some {a b r : List Char} : dropPre a b = some r ↔ b = a ++ r := by
  induction a generalizing b with
  | nil => simp [dropPre]
  | cons x xs ih =>
    cases b with
    | nil => simp [dropPre]
    | cons y ys =>
      by_cases hxy : x = y
      · subst hxy
        simp [dropPre, ih]
      · simp [dropPre, hxy, Ne.symm hxy]

theorem leadsList_iff {a b : List Char} : leadsList a b = true ↔ ∃ t, b = a ++ t := by
  simp only [leadsList, Option.isSome_iff_exists]
  exact exists_congr fun t => dropPre_eq_some

theorem leadsList_append (a t : List Char) : leadsList a (a ++ t) = true :=
  leadsList_iff.mpr ⟨t, rfl⟩

theorem containsSub_iff {pat s : List Char} :
    containsSub pat s = true ↔ ∃ l r, s = l ++ pat ++ r := by
  induction s with
  | nil =>
    simp only [containsSub, leadsList_iff]
    constructor
    · rintro ⟨t, ht⟩
      exact ⟨[], t, ht⟩
    · rintro ⟨l, r, h⟩
      obtain ⟨-, hp, hr⟩ : l = [] ∧ pat = [] ∧ r = [] := by
        simpa [List.append_eq_nil] using h.symm
      exact ⟨[], by simp [hp]⟩
  | cons c rest ih =>
    simp only [containsSub, Bool.or_eq_true, leadsList_iff, ih]
    constructor
    · rintro (⟨t, ht⟩ | ⟨l, r, hlr⟩)
      · exact ⟨[], t, by simpa using ht⟩
      · exact ⟨c :: l, r, by simp [hlr]⟩
    · rintro ⟨l, r, hlr⟩
      cases l with
      | nil => exact Or.inl ⟨r, by simpa using hlr⟩
      | cons x xs =>
        right
        refine ⟨xs, r, ?_⟩
        have := hlr
        simp only [List.cons_append] at this
        exact (List.cons.injEq .. ▸ this).2

theorem sEndsWith_iff {s suf : String} :
    sEndsWith s suf = true ↔ ∃ l, s.data = l ++ suf.data := by
  simp only [sEndsWith, leadsList_iff]
  constructor
  · rintro ⟨t, ht⟩
    refine ⟨t.reverse, ?_⟩
    have := congrArg List.reverse ht
    simpa using this
  · rintro ⟨l, hl⟩
    exact ⟨l.reverse, by simp [hl]⟩

/-! ## Python's `round`

`round(x)` in Python rounds to the nearest integer, ties to the even
neighbour (banker's rounding).  `pyRound` is the direct model over `ℚ`;
`pyRoundFrac a b` computes the same value for the exact fraction `a / b`
(`0 < b`) using only integer arithmetic, so that concrete runs of the
embedded program reduce inside `decide`.  `pyRoundFrac_eq` proves the two
agree.  (CPython evaluates `px / 40` in binary floating point; for every
pixel count below 2^49 the float result rounds to the same integer as the
exact fraction — ties `px ≡ 20 [MOD 40]` are exactly representable — so the
exact-fraction model is faithful in the program's whole operating range.) -/

/-- Python `round(q)` over the exact rational `q`: nearest integer, ties to
even. -/
def pyRound (q : ℚ) : ℤ :=
  if q - ⌊q⌋ < 1/2 then ⌊q⌋
  else if (1 : ℚ)/2 < q - ⌊q⌋ then ⌊q⌋ + 1
  else if ⌊q⌋ % 2 = 0 then ⌊q⌋ else ⌊q⌋ + 1

/-- Python `round(a / b)` for integers `a` and `0 < b`, computed over ℤ. -/
def pyRoundFrac (a : ℤ) (b : ℕ) : ℤ :=
  let q := a / (b : ℤ)
  let r := a % (b : ℤ)
  if 2 * r < (b : ℤ) then q
  else if (b : ℤ) < 2 * r then q + 1
  else if q % 2 = 0 then q else q + 1

theorem pyRoundFrac_eq {a : ℤ} {b : ℕ} (hb : 0 < b) :
    pyRoundFrac a b = pyRound ((a : ℚ) / (b : ℚ)) := by
  have hbZ : (0 : ℤ) < (b : ℤ) := mod_cast hb
  have hbQ : (0 : ℚ) < (b : ℚ) := mod_cast hb
  set q : ℤ := a / (b : ℤ) with hq
  set r : ℤ := a % (b : ℤ) with hr
  have hsplit : (b : ℤ) * q + r = a := Int.ediv_add_emod a b
  have hfloor : ⌊(a : ℚ) / (b : ℚ)⌋ = q := Rat.floor_intCast_div_natCast a b
  have hfrac : (a : ℚ) / (b : ℚ) - (q : ℚ) = (r : ℚ) / (b : ℚ) := by
    field_simp
    have : ((b : ℤ) * q + r : ℤ) = a := hsplit
    push_cast [← this]
    ring
  have hlt : ((a : ℚ) / (b : ℚ) - (q : ℚ) < 1/2) ↔ 2 * r < (b : ℤ) := by
    rw [hfrac, div_lt_div_iff₀ hbQ (by norm_num : (0 : ℚ) < 2)]
    constructor
    · intro h
      have : ((2 * r : ℤ) : ℚ) < ((b : ℤ) : ℚ) := by push_cast; linarith
      exact_mod_cast this
    · intro h
      have : ((2 * r : ℤ) : ℚ) < ((b : ℤ) : ℚ) := by exact_mod_cast h
      push_cast at this
      linarith
  have hgt : ((1 : ℚ)/2 < (a : ℚ) / (b : ℚ) - (q : ℚ)) ↔ (b : ℤ) < 2 * r := by
    rw [hfrac, div_lt_div_iff₀ (by norm_num : (0 : ℚ) < 2) hbQ]
    constructor
    · intro h
      have : (((b : ℤ)) : ℚ) < ((2 * r : ℤ) : ℚ) := by push_cast; linarith
      exact_mod_cast this
    · intro h
      have : (((b : ℤ)) : ℚ) < ((2 * r : ℤ) : ℚ) := by exact_mod_cast h
      push_cast at this
      linarith
  unfold pyRound pyRoundFrac
  rw [hfloor]
  by_cases h1 : 2 * r < (b : ℤ)
  · rw [if_pos h1, if_pos (hlt.mpr h1)]
  · rw [if_neg h1, if_neg (fun h => h1 (hlt.mp h))]
    by_cases h2 : (b : ℤ) < 2 * r
    · rw [if_pos h2, if_pos (hgt.mpr h2)]
    · rw [if_neg h2, if_neg (fun h => h2 (hgt.mp h))]

/-- `pyRound` of an integer is that integer. -/
theorem pyRound_intCast (z : ℤ) : pyRound (z : ℚ) = z := by
  unfold pyRound
  rw [Int.floor_intCast]
  rw [if_pos (by norm_num)]

/-! ## `DPMM` and the per-file `pixels_to_mm` variants

`src/main.py`, `src/api/main.py` and `src/api/mainn.py` all define
`pixels_to_mm(pixels) = round(pixels / DPMM)` with `DPMM = 40`;
`src/tempfiles/apii.py` instead defines `round(pixels / DPMM, 2)` (two
decimal places, so its result is not an integer in general).  Each variant is
embedded in its own namespace; the orchestration pipeline below uses the
integer-executable `pixels_to_mm`, proved equal to `src/main.py`'s form. -/

/-- Dots per millimeter, `DPMM = 40` in every variant. -/
def DPMM : ℕ := 40

namespace MainPy

/-- src/main.py line 20: `round(pixels / DPMM)`. -/
def pixels_to_mm (px : ℕ) : ℤ := pyRound ((px : ℚ) / (DPMM : ℚ))

end MainPy

namespace ApiMainPy

/-- src/api/main.py line 16: `round(pixels / DPMM)`. -/
def pixels_to_mm (px : ℕ) : ℤ := pyRound ((px : ℚ) / (DPMM : ℚ))

end ApiMainPy

namespace ApiMainnPy

/-- src/api/mainn.py line 21: `round(pixels / DPMM)`. -/
def pixels_to_mm (px : ℕ) : ℤ := pyRound ((px : ℚ) / (DPMM : ℚ))

end ApiMainnPy

namespace TempApii

/-- src/tempfiles/apii.py line 25: `round(pixels / DPMM, 2)` — rounded to two
decimal places, value `round(100 * px / 40) / 100` as an exact rational. -/
def pixels_to_mm (px : ℕ) : ℚ := (pyRoundFrac (100 * px) DPMM : ℚ) / 100

end TempApii

/-- The pipeline's integer-executable `pixels_to_mm` (the same function as
`MainPy.pixels_to_mm`, see `pixels_to_mm_eq_main`). -/
def pixels_to_mm (px : ℕ) : ℤ := pyRoundFrac px DPMM

theorem pixels_to_mm_eq_main (px : ℕ) : pixels_to_mm px = MainPy.pixels_to_mm px := by
  unfold pixels_to_mm MainPy.pixels_to_mm
  rw [pyRoundFrac_eq (by decide : 0 < DPMM)]
  exact congrArg pyRound (by push_cast; ring)

/-! ## The layer classifier and `process_gerber_files`

src/main.py lines 23–53.  An archive is the list of its entries, each a name
with an optional decoded text (`none` models content whose
`bytes.decode()` raises `UnicodeDecodeError`).  Classification walks
`zip_file.namelist()`: names ending in `'.gbr'` go to the Top list when they
contain the substring `'Top'` (case-sensitive), otherwise to the Bottom
list; other names are ignored.  If both lists are empty the function raises
`ValueError` ("No valid Gerber files found in the ZIP file"); otherwise it
reads and decodes each group's files (top group first) and wraps each
non-empty group in a `Project`, modelled here as the list of decoded texts. -/

/-- One zip archive: entry names with decoded content (`none` = undecodable). -/
structure Archive where
  entries : List (String × Option String)
deriving DecidableEq

/-- `zip_file.namelist()`. -/
def Archive.names (ar : Archive) : List String := ar.entries.map Prod.fst

/-- `zip_file.read(n).decode()`: `none` models a `UnicodeDecodeError`. -/
def readFile (ar : Archive) (n : String) : Option String :=
  match ar.entries.lookup n with
  | some c => c
  | none => none

/-- `file_name.endswith('.gbr')`. -/
def isGbr (n : String) : Bool := sEndsWith n ".gbr"

/-- `'Top' in file_name` (case-sensitive substring test). -/
def containsTop (n : String) : Bool := containsSub "Top".data n.data

/-- The classification loop of `process_gerber_files`: returns
`(top_layer_files, bottom_layer_files)` in archive order. -/
def classifyNames : List String → List String × List String
  | [] => ([], [])
  | n :: rest =>
    let tb := classifyNames rest
    if isGbr n then
      if containsTop n then (n :: tb.1, tb.2) else (tb.1, n :: tb.2)
    else tb

/-- Errors a conversion can raise.  `noLayers` is the `ValueError` from
`process_gerber_files`; `decodeErr` a `UnicodeDecodeError` (a `ValueError`
subclass in Python, hence also answered with 400); `badZip` a
`zipfile.BadZipFile` (not a `ValueError`: caught by the generic handler);
`renderErr` any pygerber parse/render failure. -/
inductive ConvErr
  | badZip
  | noLayers
  | decodeErr
  | renderErr
deriving DecidableEq

/-- The HTTP status `convert_gerber`'s handlers map each error to:
`except ValueError` → 400, `except Exception` → 500 (src/main.py 127–130). -/
def errStatus : ConvErr → ℕ
  | ConvErr.noLayers => 400
  | ConvErr.decodeErr => 400
  | ConvErr.badZip => 500
  | ConvErr.renderErr => 500

/-- The list comprehension `[GerberFile.from_str(zip_file.read(n).decode())
for n in group]`: decodes the group's files in order, aborting at the first
decode failure. -/
def buildProject (ar : Archive) : List String → Except ConvErr (List String)
  | [] => Except.ok []
  | n :: rest =>
    match readFile ar n with
    | none => Except.error ConvErr.decodeErr
    | some c =>
      match buildProject ar rest with
      | Except.error e => Except.error e
      | Except.ok cs => Except.ok (c :: cs)

/-- src/main.py lines 23–53: classify, fail with `ValueError` when both
groups are empty, else build the top project then the bottom project
(`none` for an empty group). -/
def process_gerber_files (ar : Archive) :
    Except ConvErr (Option (List String) × Option (List String)) :=
  let tb := classifyNames ar.names
  if tb.1 = [] ∧ tb.2 = [] then Except.error ConvErr.noLayers
  else
    match (if tb.1 = [] then Except.ok none else Except.map some (buildProject ar tb.1)) with
    | Except.error e => Except.error e
    | Except.ok tp =>
      match (if tb.2 = [] then Except.ok none else Except.map some (buildProject ar tb.2)) with
      | Except.error e => Except.error e
      | Except.ok bp => Except.ok (tp, bp)

theorem classifyNames_eq_filter (names : List String) :
    classifyNames names =
      (names.filter (fun n => isGbr n && containsTop n),
       names.filter (fun n => isGbr n && !containsTop n)) := by
  induction names with
  | nil => rfl
  | cons n rest ih =>
    unfold classifyNames
    rw [ih]
    by_cases hg : isGbr n = true
    · by_cases ht : containsTop n = true
      · simp [List.filter_cons, hg, ht]
      · simp [List.filter_cons, hg, Bool.not_eq_true _ ▸ ht,
          Bool.eq_false_iff.mpr ht]
    · simp [List.filter_cons, Bool.eq_false_iff.mpr hg]

theorem classifyNames_nil_of_no_gbr {names : List String}
    (h : ∀ n ∈ names, isGbr n = false) : classifyNames names = ([], []) := by
  rw [classifyNames_eq_filter]
  simp only [Prod.mk.injEq]
  constructor <;>
    · apply List.filter_eq_nil_iff.mpr
      intro a ha
      simp [h a ha]

/-! ## Server state, filesystem and the endpoint handlers (src/main.py)

The filesystem is an association list from absolute path to raster image
(pixel width/height); writing a path replaces any previous file there.
`ServerState` carries it together with the process-wide global `OUTPUT_DIR`
(line 15, `None` at startup) and a counter from which `tempfile.mkdtemp()`
draws fresh directory names.  The handler `convert_gerber` (lines 55–130) is
split at its one `await` (line 66): `convertPhase1` is the filename check
plus `OUTPUT_DIR = tempfile.mkdtemp()` (lines 58–62, before the `try`);
`convertPhase2` is everything after the suspension point and reads the
global `OUTPUT_DIR` as it then stands (lines 64–130). -/

/-- A raster file: pixel width and height. -/
structure Img where
  w : ℕ
  h : ℕ
deriving DecidableEq

/-- One element of `available_images`: name plus dimensions in mm. -/
structure Entry where
  name : String
  w : ℤ
  h : ℤ
deriving DecidableEq

/-- Why a conversion request was rejected before `process_gerber_files` ran
(`notZip`) or which exception the `try` block caught. -/
inductive Failure
  | notZip
  | convErr (e : ConvErr)
deriving DecidableEq

/-- The JSON answer of POST /convert-gerber/: the 200 payload (images plus
average dimensions) or an `HTTPException` status. -/
inductive Response
  | ok (images : List Entry) (avgW avgH : ℤ)
  | fail (status : ℕ) (f : Failure)
deriving DecidableEq

/-- HTTP status of a `Response`. -/
def Response.status : Response → ℕ
  | Response.ok _ _ _ => 200
  | Response.fail s _ => s

/-- The whole process's mutable state: the `mkdtemp` counter, the
filesystem, and the global `OUTPUT_DIR` pointer. -/
structure ServerState where
  nextDir : ℕ
  fs : List (String × Img)
  outputDir : Option String
deriving DecidableEq

/-- The fresh directory `tempfile.mkdtemp()` returns on its `k`-th call. -/
def dirPath (k : ℕ) : String := "/tmp/gerber" ++ toString k

/-- `os.path.join(dir, name)`: an absolute `name` discards `dir`. -/
def joinPath (dir name : String) : String :=
  if leadsList "/".data name.data then name else dir ++ "/" ++ name

/-- Write `img` at path `p`, replacing any existing file. -/
def fsPut (fs : List (String × Img)) (p : String) (img : Img) : List (String × Img) :=
  (p, img) :: fs.filter (fun e => !(e.1 == p))

/-- The external pygerber capability: a group's decoded texts to a raster,
`none` when parsing or rasterization fails (`RenderError`). -/
structure RenderEngine where
  render : List String → Option Img

/-- `if project: project.parse().render_raster(path, dpmm=DPMM)` — skipped
for an empty group, writes exactly one file on success, writes nothing and
raises on failure. -/
def renderSide (eng : RenderEngine) (proj : Option (List String)) (path : String)
    (fs : List (String × Img)) : Except ConvErr (List (String × Img)) :=
  match proj with
  | none => Except.ok fs
  | some g =>
    match eng.render g with
    | none => Except.error ConvErr.renderErr
    | some img => Except.ok (fsPut fs path img)

/-- Accumulator of the measuring loops: `available_images`, `total_width_mm`,
`total_height_mm`, `image_count`. -/
structure Agg where
  entries : List Entry
  totW : ℤ
  totH : ℤ
  count : ℕ
deriving DecidableEq

/-- One `available_images` element for a measured file. -/
def mkEntry (name : String) (img : Img) : Entry :=
  ⟨name, pixels_to_mm img.w, pixels_to_mm img.h⟩

/-- One `if os.path.exists(path): with Image.open(path) as img: …` block
(src/main.py lines 88–112): measure the file at `path` if it exists and add
it to the running totals. -/
def measureAt (fs : List (String × Img)) (path name : String) (a : Agg) : Agg :=
  match fs.lookup path with
  | none => a
  | some img =>
    ⟨a.entries ++ [mkEntry name img],
     a.totW + pixels_to_mm img.w, a.totH + pixels_to_mm img.h, a.count + 1⟩

/-- `round(total / image_count) if image_count > 0 else 0`
(src/main.py lines 115–116 and 169–170). -/
def avgOf (t : ℤ) (c : ℕ) : ℤ := if 0 < c then pyRoundFrac t c else 0

/-- Lines 58–62: the `.zip` filename check (an immediate 400 on failure,
before anything else), then `OUTPUT_DIR = tempfile.mkdtemp()` — the global
pointer is replaced with a fresh empty directory before the `try` block. -/
def convertPhase1 (filename : String) (st : ServerState) :
    Option Response × ServerState :=
  if sEndsWith filename ".zip" then
    (none, { st with nextDir := st.nextDir + 1, outputDir := some (dirPath st.nextDir) })
  else
    (some (Response.fail 400 Failure.notZip), st)

/-- Lines 64–130, resumed after `await file.read()`: parse the zip (`none`
upload = `BadZipFile`, caught by the generic handler → 500), run
`process_gerber_files`, render the two sides into paths joined from the
global `OUTPUT_DIR` *as it reads now*, measure whichever output files exist,
and answer 200 — or map the first exception through the handlers of lines
127–130. -/
def convertPhase2 (eng : RenderEngine) (upload : Option Archive) (st : ServerState) :
    Response × ServerState :=
  let dir := st.outputDir.getD ""
  match upload with
  | none => (Response.fail 500 (Failure.convErr ConvErr.badZip), st)
  | some ar =>
    match process_gerber_files ar with
    | Except.error e => (Response.fail (errStatus e) (Failure.convErr e), st)
    | Except.ok tb =>
      let outTop := dir ++ "/" ++ "output_top.png"
      let outBot := dir ++ "/" ++ "output_bottom.png"
      match renderSide eng tb.1 outTop st.fs with
      | Except.error e => (Response.fail (errStatus e) (Failure.convErr e), st)
      | Except.ok fs1 =>
        match renderSide eng tb.2 outBot fs1 with
        | Except.error e => (Response.fail (errStatus e) (Failure.convErr e), { st with fs := fs1 })
        | Except.ok fs2 =>
          let a := measureAt fs2 outBot "output_bottom.png"
                     (measureAt fs2 outTop "output_top.png" ⟨[], 0, 0, 0⟩)
          (Response.ok a.entries (avgOf a.totW a.count) (avgOf a.totH a.count),
           { st with fs := fs2 })

/-- POST /convert-gerber/ run without interleaving: phase 1, then phase 2 on
the state phase 1 left. -/
def convert_gerber (eng : RenderEngine) (filename : String) (upload : Option Archive)
    (st : ServerState) : Response × ServerState :=
  let p1 := convertPhase1 filename st
  match p1.1 with
  | some r => (r, p1.2)
  | none => convertPhase2 eng upload p1.2

/-- Answers of GET /images/{image_name}. -/
inductive GetResp
  | noDir
  | notFound
  | file (path : String) (img : Img)
deriving DecidableEq

/-- HTTP status of a `GetResp` (both error forms are 404). -/
def GetResp.status : GetResp → ℕ
  | GetResp.noDir => 404
  | GetResp.notFound => 404
  | GetResp.file _ _ => 200

/-- GET /images/{image_name} (src/main.py lines 132–142): 404 when
`OUTPUT_DIR` is unset, else serve the file at
`os.path.join(OUTPUT_DIR, image_name)` if it exists, 404 otherwise.  No
check constrains the joined path to lie inside `OUTPUT_DIR`. -/
def get_image (name : String) (st : ServerState) : GetResp :=
  match st.outputDir with
  | none => GetResp.noDir
  | some dir =>
    match st.fs.lookup (joinPath dir name) with
    | none => GetResp.notFound
    | some img => GetResp.file (joinPath dir name) img

/-- Answers of GET /list-images/: the bare `{"available_images": []}` of the
unset-`OUTPUT_DIR` branch (line 148, no `average_dimensions` key), or the
full payload. -/
inductive ListResp
  | bare (images : List Entry)
  | full (images : List Entry) (avgW avgH : ℤ)
deriving DecidableEq

/-- `name` stripped of the leading `dir ++ "/"`, provided the remainder is a
direct child (no further `/`): the entries `os.listdir(dir)` yields in this
filesystem model. -/
def fileNameIn (dir p : String) : Option String :=
  match dropPre (dir.data ++ ['/']) p.data with
  | none => none
  | some rest => if '/' ∈ rest then none else some (String.mk rest)

/-- The `.png` direct children of `dir`, with their images. -/
def pngsIn (dir : String) (fs : List (String × Img)) : List (String × Img) :=
  fs.filterMap (fun e =>
    match fileNameIn dir e.1 with
    | none => none
    | some n => if sEndsWith n ".png" then some (n, e.2) else none)

/-- The body of the measuring loop of GET /list-images/ (lines 156–167). -/
def listStep (a : Agg) (e : String × Img) : Agg :=
  ⟨a.entries ++ [mkEntry e.1 e.2],
   a.totW + pixels_to_mm e.2.w, a.totH + pixels_to_mm e.2.h, a.count + 1⟩

/-- The measuring loop of GET /list-images/ (lines 155–167). -/
def listLoop (files : List (String × Img)) : Agg :=
  files.foldl listStep ⟨[], 0, 0, 0⟩

/-- GET /list-images/ with `OUTPUT_DIR = dir` (lines 150–178). -/
def listBody (dir : String) (fs : List (String × Img)) : ListResp :=
  let a := listLoop (pngsIn dir fs)
  ListResp.full a.entries (avgOf a.totW a.count) (avgOf a.totH a.count)

/-- GET /list-images/ (src/main.py lines 144–178). -/
def list_images (st : ServerState) : ListResp :=
  match st.outputDir with
  | none => ListResp.bare []
  | some dir => listBody dir st.fs

/-- `tempfile.mkdtemp()` returns a fresh empty directory: no file of `st.fs`
lies under any directory the counter has yet to hand out. -/
def FreshState (st : ServerState) : Prop :=
  ∀ e ∈ st.fs, ∀ k, st.nextDir ≤ k →
    leadsList (dirPath k ++ "/").data e.1.data = false

/-! ## Concrete fixtures

Engines, archives and states used by the closed witness and counterexample
theorems. -/

/-- The server state at process start: counter 0, empty filesystem,
`OUTPUT_DIR = None`. -/
def st0 : ServerState := ⟨0, [], none⟩

/-- An engine that renders every group at 100 × 200 pixels. -/
def okEngine : RenderEngine := ⟨fun _ => some ⟨100, 200⟩⟩

/-- An engine whose rendering always fails. -/
def failEngine : RenderEngine := ⟨fun _ => none⟩

/-- An engine that fails exactly on the group `["u"]` (used to make a bottom
render fail after a top render succeeded). -/
def mixEngine : RenderEngine := ⟨fun g => if g = ["u"] then none else some ⟨40, 40⟩⟩

/-- An engine whose raster dimensions depend on the group's content, so the
two concurrent requests of claim 8 produce distinguishable artifacts. -/
def traceEngine : RenderEngine :=
  ⟨fun g => if g = ["a"] then some ⟨40, 40⟩ else some ⟨80, 40⟩⟩

/-- An archive with no `.gbr` entry at all. -/
def arcPlain : Archive := ⟨[("readme.txt", some "hi")]⟩

/-- A top-only archive. -/
def arcTop : Archive := ⟨[("Top.gbr", some "t")]⟩

/-- Top group `["t"]`, bottom group `["u"]`. -/
def arcMix : Archive := ⟨[("Top.gbr", some "t"), ("board.gbr", some "u")]⟩

/-- The top-only archive of the first concurrent request (content `"a"`). -/
def arcA : Archive := ⟨[("Top.gbr", some "a")]⟩

/-- The top-only archive of the second concurrent request (content `"b"`). -/
def arcB : Archive := ⟨[("Top.gbr", some "b")]⟩

/-- A state whose store is `dirPath 0` while a file exists outside it. -/
def stOutside : ServerState := ⟨1, [("/etc/secret", ⟨5, 6⟩)], some (dirPath 0)⟩

/-- A successful top-only conversion from `st0` (used as the "earlier
successful conversion" of claim 9). -/
def stAfterTop : ServerState := (convert_gerber mixEngine "a.zip" (some arcTop) st0).2

/-- The interleaved two-request trace of claim 8: request A passes phase 1,
request B passes phase 1 (overwriting the global pointer), B completes its
phase 2, then A resumes its phase 2 reading B's directory from the global. -/
def stTraceA1 : ServerState := (convertPhase1 "a.zip" st0).2

/-- After B's phase 1. -/
def stTraceB1 : ServerState := (convertPhase1 "b.zip" stTraceA1).2

/-- After B's phase 2 (B's own artifact is in place). -/
def stTraceB2 : ServerState := (convertPhase2 traceEngine (some arcB) stTraceB1).2

/-- After A's resumed phase 2 — A writes into B's directory. -/
def stTraceA2 : ServerState := (convertPhase2 traceEngine (some arcA) stTraceB2).2

/-! ## Helper lemmas about the filesystem and state -/

theorem lookup_eq_none_of_keys {fs : List (String × Img)} {p : String}
    (h : ∀ e ∈ fs, e.1 ≠ p) : fs.lookup p = none := by
  induction fs with
  | nil => rfl
  | cons e rest ih =>
    have hne : (p == e.1) = false :=
      beq_eq_false_iff_ne.mpr fun hpe => h e (by simp) hpe.symm
    simp only [List.lookup, hne]
    exact ih fun x hx => h x (by simp [hx])

theorem fsPut_of_keys {fs : List (String × Img)} {p : String} {img : Img}
    (h : ∀ e ∈ fs, e.1 ≠ p) : fsPut fs p img = (p, img) :: fs := by
  unfold fsPut
  congr 1
  induction fs with
  | nil => rfl
  | cons e rest ih =>
    have hne : (e.1 == p) = false := beq_eq_false_iff_ne.mpr (h e (by simp))
    simp only [List.filter_cons, hne, Bool.not_false, if_pos]
    exact congrArg (e :: ·) (ih fun x hx => h x (by simp [hx]))

theorem lookup_cons_self {fs : List (String × Img)} {p : String} {img : Img} :
    ((p, img) :: fs).lookup p = some img := by
  simp [List.lookup]

theorem lookup_cons_of_ne {fs : List (String × Img)} {p q : String} {img : Img}
    (h : p ≠ q) : ((q, img) :: fs).lookup p = fs.lookup p := by
  simp [List.lookup, beq_eq_false_iff_ne.mpr h]

/-- Two distinct relative names joined below the same directory give distinct
paths. -/
theorem append_name_injective {dir a b : String} (h : a ≠ b) :
    dir ++ "/" ++ a ≠ dir ++ "/" ++ b := by
  intro hab
  apply h
  have hd := congrArg String.data hab
  simp only [String.data_append] at hd
  exact String.ext (List.append_cancel_left hd)

/-- A path below `dirPath k` for a not-yet-allotted `k` names no file of a
fresh state. -/
theorem fresh_key_ne {st : ServerState} (hf : FreshState st) {k : ℕ}
    (hk : st.nextDir ≤ k) (name : String) :
    ∀ e ∈ st.fs, e.1 ≠ dirPath k ++ "/" ++ name := by
  intro e he heq
  have hpre : leadsList (dirPath k ++ "/").data e.1.data = true := by
    rw [heq]
    have : (dirPath k ++ "/" ++ name).data = (dirPath k ++ "/").data ++ name.data := by
      simp [String.data_append]
    rw [this]
    exact leadsList_append _ _
  rw [hf e he k hk] at hpre
  exact Bool.false_ne_true hpre

theorem fresh_lookup_none {st : ServerState} (hf : FreshState st) {k : ℕ}
    (hk : st.nextDir ≤ k) (name : String) :
    st.fs.lookup (dirPath k ++ "/" ++ name) = none :=
  lookup_eq_none_of_keys (fresh_key_ne hf hk name)

/-- `renderSide` raises only `RenderError`. -/
theorem renderSide_error {eng : RenderEngine} {proj : Option (List String)}
    {path : String} {fs : List (String × Img)} {e : ConvErr}
    (h : renderSide eng proj path fs = Except.error e) : e = ConvErr.renderErr := by
  unfold renderSide at h
  split at h
  · exact Except.noConfusion h
  · split at h
    · injection h with h
      exact h.symm
    · exact Except.noConfusion h

/-- Phase 2 never touches the global pointer or the `mkdtemp` counter. -/
theorem convertPhase2_frame (eng : RenderEngine) (upload : Option Archive)
    (st : ServerState) :
    ((convertPhase2 eng upload st).2).outputDir = st.outputDir ∧
    ((convertPhase2 eng upload st).2).nextDir = st.nextDir := by
  constructor <;>
    · unfold convertPhase2
      dsimp only
      repeat' split
      all_goals rfl

theorem listLoop_go (files : List (String × Img)) (a : Agg) :
    files.foldl listStep a =
      ⟨a.entries ++ files.map (fun e => mkEntry e.1 e.2),
       a.totW + (files.map (fun e => pixels_to_mm e.2.w)).sum,
       a.totH + (files.map (fun e => pixels_to_mm e.2.h)).sum,
       a.count + files.length⟩ := by
  induction files generalizing a with
  | nil => simp
  | cons e rest ih =>
    simp only [List.foldl_cons, ih, listStep, List.map_cons, List.sum_cons, List.length_cons]
    simp only [Agg.mk.injEq]
    exact ⟨by simp, by ring, by ring, by omega⟩

theorem listLoop_spec (files : List (String × Img)) :
    listLoop files =
      ⟨files.map (fun e => mkEntry e.1 e.2),
       (files.map (fun e => pixels_to_mm e.2.w)).sum,
       (files.map (fun e => pixels_to_mm e.2.h)).sum,
       files.length⟩ := by
  unfold listLoop
  rw [listLoop_go]
  simp

/-- `avgOf` at one image is that image's value. -/
theorem avgOf_one (t : ℤ) : avgOf t 1 = t := by
  norm_num [avgOf, pyRoundFrac]

/-- `avgOf` for a positive count is Python's `round(total / count)` over the
exact rational. -/
theorem avgOf_pos {c : ℕ} (t : ℤ) (hc : 0 < c) :
    avgOf t c = pyRound ((t : ℚ) / (c : ℚ)) := by
  rw [avgOf, if_pos hc, pyRoundFrac_eq hc]

/-- `convertPhase2` on a state whose global pointer is `some dir`, for an
upload whose `process_gerber_files` succeeds. -/
theorem convertPhase2_eval (eng : RenderEngine) (ar : Archive) (st : ServerState)
    (dir : String) (tp bp : Option (List String))
    (hdir : st.outputDir = some dir)
    (hp : process_gerber_files ar = Except.ok (tp, bp)) :
    convertPhase2 eng (some ar) st =
      (match renderSide eng tp (dir ++ "/" ++ "output_top.png") st.fs with
       | Except.error e => (Response.fail (errStatus e) (Failure.convErr e), st)
       | Except.ok fs1 =>
         match renderSide eng bp (dir ++ "/" ++ "output_bottom.png") fs1 with
         | Except.error e => (Response.fail (errStatus e) (Failure.convErr e), { st with fs := fs1 })
         | Except.ok fs2 =>
           let a := measureAt fs2 (dir ++ "/" ++ "output_bottom.png") "output_bottom.png"
                      (measureAt fs2 (dir ++ "/" ++ "output_top.png") "output_top.png" ⟨[], 0, 0, 0⟩)
           (Response.ok a.entries (avgOf a.totW a.count) (avgOf a.totH a.count),
            { st with fs := fs2 })) := by
  unfold convertPhase2
  rw [hdir]
  dsimp only [Option.getD]
  rw [hp]

/-! ## The claims -/

/-- Claim C1: classification partitions exactly the entry names ending in
`.gbr` — a `.gbr` name is in the Top group iff it contains the case-sensitive
substring `"Top"`, in the Bottom group iff it does not, and a name not ending
in `.gbr` is in neither group. -/
theorem claim1_classification_partitions (names : List String) (n : String) :
    (n ∈ (classifyNames names).1 ↔
        n ∈ names ∧ (∃ l, n.data = l ++ ".gbr".data) ∧
          ∃ l r, n.data = l ++ "Top".data ++ r) ∧
    (n ∈ (classifyNames names).2 ↔
        n ∈ names ∧ (∃ l, n.data = l ++ ".gbr".data) ∧
          ¬ ∃ l r, n.data = l ++ "Top".data ++ r) := by
  have hg : isGbr n = true ↔ ∃ l, n.data = l ++ ".gbr".data := sEndsWith_iff
  have ht : containsTop n = true ↔ ∃ l r, n.data = l ++ "Top".data ++ r := containsSub_iff
  rw [classifyNames_eq_filter]
  constructor
  · simp only [List.mem_filter, Bool.and_eq_true]
    constructor
    · rintro ⟨hn, hgbr, htop⟩
      exact ⟨hn, hg.mp hgbr, ht.mp htop⟩
    · rintro ⟨hn, hgbr, htop⟩
      exact ⟨hn, hg.mpr hgbr, ht.mpr htop⟩
  · simp only [List.mem_filter, Bool.and_eq_true, Bool.not_eq_true']
    constructor
    · rintro ⟨hn, hgbr, htop⟩
      refine ⟨hn, hg.mp hgbr, fun hc => ?_⟩
      rw [ht.mpr hc] at htop
      cases htop
    · rintro ⟨hn, hgbr, htop⟩
      refine ⟨hn, hg.mpr hgbr, ?_⟩
      cases hct : containsTop n with
      | false => rfl
      | true => exact absurd (ht.mp hct) htop

/-- Claim C2: an archive (under a `.zip` filename) in which no entry name
ends in `.gbr` makes the conversion fail with the `ValueError` of
`process_gerber_files` ("no valid Gerber files"), answered with status 400,
whatever its other contents. -/
theorem claim2_no_layers_400 (eng : RenderEngine) (st : ServerState)
    (filename : String) (ar : Archive)
    (hz : sEndsWith filename ".zip" = true)
    (h : ∀ n ∈ ar.names, isGbr n = false) :
    convert_gerber eng filename (some ar) st =
      (Response.fail 400 (Failure.convErr ConvErr.noLayers),
       { st with nextDir := st.nextDir + 1, outputDir := some (dirPath st.nextDir) }) := by
  have hp : process_gerber_files ar = Except.error ConvErr.noLayers := by
    unfold process_gerber_files
    rw [classifyNames_nil_of_no_gbr h]
    rw [if_pos ⟨rfl, rfl⟩]
  unfold convert_gerber convertPhase1
  rw [if_pos hz]
  dsimp only
  unfold convertPhase2
  dsimp only [Option.getD]
  rw [hp]
  rfl

/-- Claim C2 witness: an archive holding only `readme.txt`. -/
theorem claim2_witness :
    convert_gerber okEngine "a.zip" (some arcPlain) st0 =
      (Response.fail 400 (Failure.convErr ConvErr.noLayers),
       { st0 with nextDir := st0.nextDir + 1, outputDir := some (dirPath st0.nextDir) }) :=
  claim2_no_layers_400 okEngine st0 "a.zip" arcPlain (by decide) (by decide)

/-- Claim C3 counterexample: at 20 pixels `src/main.py` converts to the
integer 0 while `src/tempfiles/apii.py` (cited by the claim) converts to the
non-integer 1/2 — the conversion is not the same function on every code
path, and the tempfiles variant does not return an integer. -/
theorem claim3_counterexample :
    MainPy.pixels_to_mm 20 = 0 ∧ TempApii.pixels_to_mm 20 = 1/2 ∧
      TempApii.pixels_to_mm 20 ≠ ((MainPy.pixels_to_mm 20 : ℤ) : ℚ) := by
  have h1 : MainPy.pixels_to_mm 20 = 0 := by
    rw [← pixels_to_mm_eq_main]
    decide
  have h2 : TempApii.pixels_to_mm 20 = 1/2 := by
    unfold TempApii.pixels_to_mm
    simp only [Nat.cast_ofNat]
    norm_num
    rw [show pyRoundFrac 2000 DPMM = 50 from by decide]
    norm_num
  refine ⟨h1, h2, ?_⟩
  rw [h1, h2]
  norm_num

/-- Claim C3 amended: `pixels_to_mm(px) = round(px / 40)` (Python's
round-half-to-even over the exact fraction, `DPMM = 40`) returns an integer
and is the same function in `src/main.py`, `src/api/main.py` and
`src/api/mainn.py`; but it is NOT the same function on every code path of
the repository: `src/tempfiles/apii.py` rounds to two decimal places and
disagrees (e.g. at 20 pixels). -/
theorem claim3_amended :
    (∀ px : ℕ,
       ApiMainPy.pixels_to_mm px = MainPy.pixels_to_mm px ∧
       ApiMainnPy.pixels_to_mm px = MainPy.pixels_to_mm px ∧
       MainPy.pixels_to_mm px = pyRoundFrac px DPMM) ∧
    (∃ px : ℕ, TempApii.pixels_to_mm px ≠ ((MainPy.pixels_to_mm px : ℤ) : ℚ)) := by
  constructor
  · intro px
    exact ⟨rfl, rfl, (pixels_to_mm_eq_main px).symm⟩
  · refine ⟨20, ?_⟩
    have h1 : MainPy.pixels_to_mm 20 = 0 := by
      rw [← pixels_to_mm_eq_main]
      decide
    have h2 : TempApii.pixels_to_mm 20 = 1/2 := by
      unfold TempApii.pixels_to_mm
      simp only [Nat.cast_ofNat]
      norm_num
      rw [show pyRoundFrac 2000 DPMM = 50 from by decide]
      norm_num
    rw [h1, h2]
    norm_num

/-- Claim C4: with zero produced images both averages are 0 and no error is
raised (the guarded division's error branch is unreachable — `avgOf` is total
and returns 0 at count 0); with `N > 0` images the reported average is
`round(sum / N)` of the reported dimensions. -/
theorem claim4_average_guarded (dir : String) (fs : List (String × Img)) :
    (∀ t : ℤ, avgOf t 0 = 0) ∧
    listBody dir fs =
      ListResp.full ((pngsIn dir fs).map (fun e => mkEntry e.1 e.2))
        (if 0 < (pngsIn dir fs).length then
           pyRound ((((((pngsIn dir fs).map (fun e => mkEntry e.1 e.2)).map Entry.w).sum : ℤ) : ℚ) /
             ((pngsIn dir fs).length : ℚ))
         else 0)
        (if 0 < (pngsIn dir fs).length then
           pyRound ((((((pngsIn dir fs).map (fun e => mkEntry e.1 e.2)).map Entry.h).sum : ℤ) : ℚ) /
             ((pngsIn dir fs).length : ℚ))
         else 0) := by
  constructor
  · intro t
    simp [avgOf]
  · unfold listBody
    rw [listLoop_spec]
    dsimp only
    have hw : (((pngsIn dir fs).map (fun e => mkEntry e.1 e.2)).map Entry.w).sum =
        ((pngsIn dir fs).map (fun e => pixels_to_mm e.2.w)).sum := by
      rw [List.map_map]
      rfl
    have hh : (((pngsIn dir fs).map (fun e => mkEntry e.1 e.2)).map Entry.h).sum =
        ((pngsIn dir fs).map (fun e => pixels_to_mm e.2.h)).sum := by
      rw [List.map_map]
      rfl
    simp only [ListResp.full.injEq]
    refine ⟨trivial, ?_, ?_⟩ <;>
      · by_cases hl : 0 < (pngsIn dir fs).length
        · rw [if_pos hl, avgOf_pos _ hl]
          first
            | rw [hw]
            | rw [hh]
        · rw [if_neg hl]
          rw [show (pngsIn dir fs).length = 0 from by omega]
          simp [avgOf]

/-- Claim C5: starting from a fresh store, a conversion whose classification
leaves exactly one group non-empty runs exactly one render job and produces
exactly one artifact — the response is a success listing only that side and
exactly one file is added to the store; with both groups non-empty exactly
two artifacts are produced. -/
theorem claim5_artifact_counts (eng : RenderEngine) (st : ServerState)
    (filename : String) (ar : Archive) (tp bp : Option (List String))
    (hz : sEndsWith filename ".zip" = true)
    (hfresh : FreshState st)
    (hp : process_gerber_files ar = Except.ok (tp, bp)) :
    (∀ g img, tp = some g → bp = none → eng.render g = some img →
      convert_gerber eng filename (some ar) st =
        (Response.ok [mkEntry "output_top.png" img]
           (pixels_to_mm img.w) (pixels_to_mm img.h),
         { st with nextDir := st.nextDir + 1,
                   outputDir := some (dirPath st.nextDir),
                   fs := (dirPath st.nextDir ++ "/" ++ "output_top.png", img) :: st.fs })) ∧
    (∀ g img, tp = none → bp = some g → eng.render g = some img →
      convert_gerber eng filename (some ar) st =
        (Response.ok [mkEntry "output_bottom.png" img]
           (pixels_to_mm img.w) (pixels_to_mm img.h),
         { st with nextDir := st.nextDir + 1,
                   outputDir := some (dirPath st.nextDir),
                   fs := (dirPath st.nextDir ++ "/" ++ "output_bottom.png", img) :: st.fs })) ∧
    (∀ gt gb imgT imgB, tp = some gt → bp = some gb →
      eng.render gt = some imgT → eng.render gb = some imgB →
      convert_gerber eng filename (some ar) st =
        (Response.ok [mkEntry "output_top.png" imgT, mkEntry "output_bottom.png" imgB]
           (avgOf (pixels_to_mm imgT.w + pixels_to_mm imgB.w) 2)
           (avgOf (pixels_to_mm imgT.h + pixels_to_mm imgB.h) 2),
         { st with nextDir := st.nextDir + 1,
                   outputDir := some (dirPath st.nextDir),
                   fs := (dirPath st.nextDir ++ "/" ++ "output_bottom.png", imgB) ::
                         (dirPath st.nextDir ++ "/" ++ "output_top.png", imgT) :: st.fs })) := by
  set dir := dirPath st.nextDir with hdirdef
  set pT := dir ++ "/" ++ "output_top.png" with hpT
  set pB := dir ++ "/" ++ "output_bottom.png" with hpB
  set st1 : ServerState :=
    { st with nextDir := st.nextDir + 1, outputDir := some dir } with hst1
  have hstep : convert_gerber eng filename (some ar) st = convertPhase2 eng (some ar) st1 := by
    unfold convert_gerber convertPhase1
    rw [if_pos hz]
  have hkT : ∀ e ∈ st.fs, e.1 ≠ pT := fresh_key_ne hfresh (le_refl _) _
  have hkB : ∀ e ∈ st.fs, e.1 ≠ pB := fresh_key_ne hfresh (le_refl _) _
  have hBT : pB ≠ pT := append_name_injective (by decide)
  have hTB : pT ≠ pB := append_name_injective (by decide)
  refine ⟨?_, ?_, ?_⟩
  · rintro g img htp hbp hrt
    subst htp
    subst hbp
    rw [hstep, convertPhase2_eval eng ar st1 dir (some g) none rfl hp]
    simp only [renderSide, hrt, fsPut_of_keys hkT]
    simp only [measureAt, lookup_cons_self, lookup_cons_of_ne hBT,
      fresh_lookup_none hfresh (le_refl _)]
    simp [avgOf_one]
  · rintro g img htp hbp hrt
    subst htp
    subst hbp
    rw [hstep, convertPhase2_eval eng ar st1 dir none (some g) rfl hp]
    simp only [renderSide, hrt, fsPut_of_keys hkB]
    simp only [measureAt, lookup_cons_self, lookup_cons_of_ne hTB,
      fresh_lookup_none hfresh (le_refl _)]
    simp [avgOf_one]
  · rintro gt gb imgT imgB htp hbp hrt hrb
    subst htp
    subst hbp
    rw [hstep, convertPhase2_eval eng ar st1 dir (some gt) (some gb) rfl hp]
    have hk1 : ∀ e ∈ ((pT, imgT) :: st.fs), e.1 ≠ pB := by
      intro e he
      rcases List.mem_cons.mp he with he | he
      · rw [he]
        exact hTB
      · exact hkB e he
    simp only [renderSide, hrt, hrb, fsPut_of_keys hkT, fsPut_of_keys hk1]
    simp only [measureAt, lookup_cons_self, lookup_cons_of_ne hBT, lookup_cons_of_ne hTB,
      lookup_cons_self]
    simp

/-- Claim C5 witness: a top-only archive rendered at 100 × 200 px from the
startup state. -/
theorem claim5_witness :
    convert_gerber okEngine "a.zip" (some arcTop) st0 =
      (Response.ok [mkEntry "output_top.png" ⟨100, 200⟩]
         (pixels_to_mm 100) (pixels_to_mm 200),
       { st0 with nextDir := st0.nextDir + 1,
                  outputDir := some (dirPath st0.nextDir),
                  fs := (dirPath st0.nextDir ++ "/" ++ "output_top.png", ⟨100, 200⟩) :: st0.fs }) :=
  (claim5_artifact_counts okEngine st0 "a.zip" arcTop (some ["t"]) none
      (by decide) (fun e he => absurd he (List.not_mem_nil e)) (by decide)).1
    ["t"] ⟨100, 200⟩ rfl rfl (by decide)

/-- Claim C6 counterexample: an upload named `board.zip` whose bytes are not
a valid zip container (`BadZipFile` is not a `ValueError`) is answered with
status 500, not the claimed 400. -/
theorem claim6_counterexample :
    (convert_gerber okEngine "board.zip" none st0).1 =
      Response.fail 500 (Failure.convErr ConvErr.badZip) ∧
    ¬ (convert_gerber okEngine "board.zip" none st0).1.status = 400 := by
  constructor <;> decide

/-- Claim C6 amended: an upload whose FILENAME does not end in `.zip` is
rejected with 400 before any extraction (the state, including the store, is
untouched); an upload with a `.zip` filename whose bytes are not a valid zip
container raises `zipfile.BadZipFile`, which falls into the generic handler
and is answered with 500 — after the global pointer has already been moved to
the fresh directory. -/
theorem claim6_amended (eng : RenderEngine) (filename : String)
    (upload : Option Archive) (st : ServerState) :
    (sEndsWith filename ".zip" = false →
       convert_gerber eng filename upload st = (Response.fail 400 Failure.notZip, st)) ∧
    (sEndsWith filename ".zip" = true → upload = none →
       convert_gerber eng filename upload st =
         (Response.fail 500 (Failure.convErr ConvErr.badZip),
          { st with nextDir := st.nextDir + 1, outputDir := some (dirPath st.nextDir) })) := by
  constructor
  · intro hz
    unfold convert_gerber convertPhase1
    rw [if_neg (by simp [hz])]
  · intro hz hu
    subst hu
    unfold convert_gerber convertPhase1
    rw [if_pos hz]
    rfl

/-- Claim C6 witness: a `.txt` filename is rejected 400 with the state
untouched; a `.zip` filename with an unparsable payload gets 500. -/
theorem claim6_witness :
    convert_gerber okEngine "a.txt" none st0 = (Response.fail 400 Failure.notZip, st0) ∧
    convert_gerber okEngine "a.zip" none st0 =
      (Response.fail 500 (Failure.convErr ConvErr.badZip),
       { st0 with nextDir := st0.nextDir + 1, outputDir := some (dirPath st0.nextDir) }) :=
  ⟨(claim6_amended okEngine "a.txt" none st0).1 (by decide),
   (claim6_amended okEngine "a.zip" none st0).2 (by decide) rfl⟩

/-- Claim C7: if any render job that runs fails, the whole request fails with
the 500 of the generic handler — no `ConversionResult` is returned and no
partial success (only the side that rendered) is ever reported. -/
theorem claim7_fail_fast (eng : RenderEngine) (st : ServerState)
    (filename : String) (ar : Archive) (tp bp : Option (List String))
    (gt gb : List String)
    (hz : sEndsWith filename ".zip" = true)
    (hp : process_gerber_files ar = Except.ok (tp, bp))
    (hfail : (tp = some gt ∧ eng.render gt = none) ∨
             (bp = some gb ∧ eng.render gb = none)) :
    (convert_gerber eng filename (some ar) st).1 =
      Response.fail 500 (Failure.convErr ConvErr.renderErr) := by
  set dir := dirPath st.nextDir with hdirdef
  set st1 : ServerState :=
    { st with nextDir := st.nextDir + 1, outputDir := some dir } with hst1
  have hstep : convert_gerber eng filename (some ar) st = convertPhase2 eng (some ar) st1 := by
    unfold convert_gerber convertPhase1
    rw [if_pos hz]
  rw [hstep, convertPhase2_eval eng ar st1 dir tp bp rfl hp]
  rcases hfail with ⟨htp, hrt⟩ | ⟨hbp, hrb⟩
  · subst htp
    simp only [renderSide, hrt]
    rfl
  · subst hbp
    cases hT : renderSide eng tp (dir ++ "/" ++ "output_top.png") st.fs with
    | error e =>
      simp only [hT, renderSide_error hT]
      rfl
    | ok fs1 =>
      simp only [hT, renderSide, hrb]
      rfl

/-- Claim C7 witness: top group renders, bottom group's render fails — the
request answers 500 and reports nothing (in particular not the successful
top side). -/
theorem claim7_witness :
    (convert_gerber mixEngine "b.zip" (some arcMix) st0).1 =
      Response.fail 500 (Failure.convErr ConvErr.renderErr) :=
  claim7_fail_fast mixEngine st0 "b.zip" arcMix (some ["t"]) (some ["u"]) ["t"] ["u"]
    (by decide) (by decide) (Or.inr ⟨rfl, by decide⟩)

/-- Claim C8 counterexample: two conversions interleaved at the handler's
`await` point (A phase 1, B phase 1, B phase 2, A resumes phase 2).  Request
B's artifact at `/tmp/gerber1/output_top.png` is `⟨80,40⟩` after B completes,
but A's resumed phase 2 reads the shared global `OUTPUT_DIR` — now B's
directory — and overwrites it with A's `⟨40,40⟩`; B's subsequent read then
serves A's image.  The claimed isolation fails. -/
theorem claim8_counterexample :
    stTraceB2.fs.lookup (dirPath 1 ++ "/" ++ "output_top.png") = some ⟨80, 40⟩ ∧
    stTraceA2.fs.lookup (dirPath 1 ++ "/" ++ "output_top.png") = some ⟨40, 40⟩ ∧
    get_image "output_top.png" stTraceA2 =
      GetResp.file (dirPath 1 ++ "/" ++ "output_top.png") ⟨40, 40⟩ ∧
    Img.mk 40 40 ≠ Img.mk 80 40 := by
  decide

/-- Claim C8 amended: concurrent conversions are NOT isolated — there is an
interleaving of two requests (each suspended once, at `await file.read()`)
in which the artifact one request's conversion wrote is overwritten by the
other request's writes, and a subsequent image read returns the other
request's image. -/
theorem claim8_amended :
    ∃ (eng : RenderEngine) (fnA fnB : String) (arA arB : Archive)
      (st : ServerState) (p : String) (imgA imgB : Img),
      imgA ≠ imgB ∧
      (convertPhase1 fnA st).1 = none ∧
      (convertPhase1 fnB (convertPhase1 fnA st).2).1 = none ∧
      ((convertPhase2 eng (some arB)
          (convertPhase1 fnB (convertPhase1 fnA st).2).2).2).fs.lookup p = some imgB ∧
      ((convertPhase2 eng (some arA)
          (convertPhase2 eng (some arB)
            (convertPhase1 fnB (convertPhase1 fnA st).2).2).2).2).fs.lookup p = some imgA ∧
      get_image "output_top.png"
        ((convertPhase2 eng (some arA)
          (convertPhase2 eng (some arB)
            (convertPhase1 fnB (convertPhase1 fnA st).2).2).2).2) = GetResp.file p imgA := by
  refine ⟨traceEngine, "a.zip", "b.zip", arcA, arcB, st0,
    dirPath 1 ++ "/" ++ "output_top.png", ⟨40, 40⟩, ⟨80, 40⟩, ?_⟩
  decide

/-- Claim C9 counterexample: after a successful top-only conversion, a
second conversion whose top group renders but whose bottom render fails
answers 500 — yet GET /images/output_top.png then answers 200 (it serves the
failed request's freshly written top artifact), not the claimed 404 for the
earlier artifact's name. -/
theorem claim9_counterexample :
    (convert_gerber mixEngine "a.zip" (some arcTop) st0).1 =
      Response.ok [Entry.mk "output_top.png" 1 1] 1 1 ∧
    ((convert_gerber mixEngine "b.zip" (some arcMix) stAfterTop).1).status = 500 ∧
    (get_image "output_top.png"
        (convert_gerber mixEngine "b.zip" (some arcMix) stAfterTop).2).status = 200 := by
  decide

/-- Claim C9 amended: a `.zip`-named request replaces the global pointer with
the fresh directory before it can fail, so after a failed request the store
pointer is the fresh directory; every GET for a relative name either answers
404 or serves a file that did not exist before the failed request (never an
earlier conversion's artifact), and every entry GET /list-images/ reports
resolves to a path that held no file before the failed request. -/
theorem claim9_amended (eng : RenderEngine) (filename : String)
    (upload : Option Archive) (st : ServerState)
    (hz : sEndsWith filename ".zip" = true)
    (hfresh : FreshState st)
    (_hfail : ¬ (convert_gerber eng filename upload st).1.status = 200) :
    ((convert_gerber eng filename upload st).2.outputDir = some (dirPath st.nextDir)) ∧
    ((convert_gerber eng filename upload st).2.nextDir = st.nextDir + 1) ∧
    (∀ name p img, leadsList "/".data name.data = false →
       get_image name (convert_gerber eng filename upload st).2 = GetResp.file p img →
       st.fs.lookup p = none) ∧
    (∀ es w h, list_images (convert_gerber eng filename upload st).2 = ListResp.full es w h →
       ∀ e ∈ es, st.fs.lookup (dirPath st.nextDir ++ "/" ++ e.name) = none) := by
  have hsplit : convert_gerber eng filename upload st =
      convertPhase2 eng upload
        { st with nextDir := st.nextDir + 1, outputDir := some (dirPath st.nextDir) } := by
    unfold convert_gerber convertPhase1
    rw [if_pos hz]
  have hframe := convertPhase2_frame eng upload
    { st with nextDir := st.nextDir + 1, outputDir := some (dirPath st.nextDir) }
  have hout : (convert_gerber eng filename upload st).2.outputDir = some (dirPath st.nextDir) := by
    rw [hsplit]
    exact hframe.1
  refine ⟨hout, by rw [hsplit]; exact hframe.2, ?_, ?_⟩
  · intro name p img hrel hget
    unfold get_image at hget
    rw [hout] at hget
    dsimp only at hget
    have hjoin : joinPath (dirPath st.nextDir) name = dirPath st.nextDir ++ "/" ++ name := by
      unfold joinPath
      rw [if_neg (by simp [hrel])]
    rw [hjoin] at hget
    cases hlk : ((convert_gerber eng filename upload st).2).fs.lookup
        (dirPath st.nextDir ++ "/" ++ name) with
    | none =>
      rw [hlk] at hget
      cases hget
    | some i =>
      rw [hlk] at hget
      cases hget
      exact fresh_lookup_none hfresh (le_refl _) name
  · intro es w h _ e _
    exact fresh_lookup_none hfresh (le_refl _) e.name

/-- Claim C9 witness: the failing mixed conversion from the startup state. -/
theorem claim9_witness :
    ((convert_gerber mixEngine "b.zip" (some arcMix) st0).2.outputDir =
        some (dirPath st0.nextDir)) ∧
    ((convert_gerber mixEngine "b.zip" (some arcMix) st0).2.nextDir = st0.nextDir + 1) ∧
    (∀ name p img, leadsList "/".data name.data = false →
       get_image name (convert_gerber mixEngine "b.zip" (some arcMix) st0).2 =
         GetResp.file p img →
       st0.fs.lookup p = none) ∧
    (∀ es w h, list_images (convert_gerber mixEngine "b.zip" (some arcMix) st0).2 =
         ListResp.full es w h →
       ∀ e ∈ es, st0.fs.lookup (dirPath st0.nextDir ++ "/" ++ e.name) = none) :=
  claim9_amended mixEngine "b.zip" (some arcMix) st0 (by decide)
    (fun e he => absurd he (List.not_mem_nil e)) (by decide)

/-- Claim C10: GET /images/{name} serves exactly the file at
`os.path.join(OUTPUT_DIR, name)` when that path exists and answers 404 only
when it does not; no check restricts the joined path to the store, and for
an absolute `name` the endpoint serves a file lying outside the store. -/
theorem claim10_get_image_join (st : ServerState) (dir name : String)
    (h : st.outputDir = some dir) :
    (∀ img, st.fs.lookup (joinPath dir name) = some img →
       get_image name st = GetResp.file (joinPath dir name) img) ∧
    (st.fs.lookup (joinPath dir name) = none → get_image name st = GetResp.notFound) ∧
    (∃ st2 : ServerState, ∃ name2 p : String, ∃ img : Img,
       st2.outputDir = some (dirPath 0) ∧
       get_image name2 st2 = GetResp.file p img ∧
       leadsList ((dirPath 0) ++ "/").data p.data = false) := by
  refine ⟨?_, ?_,
    ⟨stOutside, "/etc/secret", "/etc/secret", ⟨5, 6⟩, by decide, by decide, by decide⟩⟩
  · intro img hlk
    unfold get_image
    rw [h]
    dsimp only
    rw [hlk]
  · intro hlk
    unfold get_image
    rw [h]
    dsimp only
    rw [hlk]

/-- Claim C10 witness: with the store at `dirPath 0`, the request name
`/etc/secret` is served from outside the store. -/
theorem claim10_witness :
    get_image "/etc/secret" stOutside =
      GetResp.file (joinPath (dirPath 0) "/etc/secret") ⟨5, 6⟩ :=
  (claim10_get_image_join stOutside (dirPath 0) "/etc/secret" rfl).1 ⟨5, 6⟩ (by decide)

end GerberApi
